import Mathlib

/-!
Verification development for the Roo Code web-server bridge
(`src/server/WebServer.ts`): a shallow embedding of the JSON envelope
model, the WebSocket message-relay dispatch, the broadcast fan-out, the
HTTP routing with Basic-Auth gate, and the configure/getPort lifecycle,
together with theorems settling the specified properties.
-/

namespace RooWeb

/-! ## JSON values

JavaScript values produced by `JSON.parse` / consumed by `JSON.stringify`.
Numbers are modelled as integers (all numeric fields this server touches
are integral). An object is a list of key/value pairs; `JSON.parse`
produces unique keys, but the model does not need that assumption. -/

inductive Json where
  | null : Json
  | bool : Bool → Json
  | num : Int → Json
  | str : String → Json
  | arr : List Json → Json
  | obj : List (String × Json) → Json
deriving Repr

/-- JavaScript truthiness of a value: `null`, `false`, `0` and `""` are
falsy; every object and array is truthy. -/
def Json.truthy : Json → Bool
  | Json.null => false
  | Json.bool b => b
  | Json.num n => n != 0
  | Json.str s => s != ""
  | Json.arr _ => true
  | Json.obj _ => true

/-- Property access `parsed.<name>` on an object; on a non-object value the
access yields `undefined`, modelled as `none` (the `null` receiver, which
throws in JavaScript, is handled separately at the dispatch site). -/
def lookupField : List (String × Json) → String → Option Json
  | [], _ => none
  | (k, v) :: rest, name => if k = name then some v else lookupField rest name

def Json.getField : Json → String → Option Json
  | Json.obj fields, name => lookupField fields name
  | _, _ => none

/-- Truthiness of a possibly-absent field: `undefined` is falsy. -/
def truthyOpt : Option Json → Bool
  | some j => j.truthy
  | none => false

/-- Four lowercase hex digits, used for control-character escapes. -/
def hexDigit (n : Nat) : Char :=
  if n < 10 then Char.ofNat (48 + n) else Char.ofNat (87 + n)

def hex4 (n : Nat) : List Char :=
  [hexDigit (n / 4096 % 16), hexDigit (n / 256 % 16), hexDigit (n / 16 % 16), hexDigit (n % 16)]

/-- Escaping of `JSON.stringify` for one character inside a string literal. -/
def escChar (c : Char) : List Char :=
  if c = '"' then ['\\', '"']
  else if c = '\\' then ['\\', '\\']
  else if c = Char.ofNat 10 then ['\\', 'n']
  else if c = Char.ofNat 13 then ['\\', 'r']
  else if c = Char.ofNat 9 then ['\\', 't']
  else if c = Char.ofNat 8 then ['\\', 'b']
  else if c = Char.ofNat 12 then ['\\', 'f']
  else if c.toNat < 32 then '\\' :: 'u' :: hex4 c.toNat
  else [c]

/-- A JSON string literal with surrounding quotes. -/
def jsonQuote (s : String) : String :=
  String.mk ('"' :: (s.data.flatMap escChar) ++ ['"'])

def commaJoin (parts : List String) : String :=
  String.intercalate "," parts

mutual

/-- Model of `JSON.stringify`, restricted to the value model above. -/
def Json.serialize : Json → String
  | Json.null => "null"
  | Json.bool true => "true"
  | Json.bool false => "false"
  | Json.num n => toString n
  | Json.str s => jsonQuote s
  | Json.arr xs => "[" ++ commaJoin (serializeList xs) ++ "]"
  | Json.obj fs => "\x7b" ++ commaJoin (serializeFields fs) ++ "\x7d"
termination_by j => sizeOf j

def serializeList : List Json → List String
  | [] => []
  | x :: xs => Json.serialize x :: serializeList xs
termination_by l => sizeOf l

def serializeFields : List (String × Json) → List String
  | [] => []
  | (k, v) :: fs => (jsonQuote k ++ ":" ++ Json.serialize v) :: serializeFields fs
termination_by l => sizeOf l

end

/-! ## WebSocket message relay (inbound dispatch)

Model of the `ws.on("message", ...)` handler installed in
`WebServer.start`. A received frame is `JSON.parse`d inside a
`try`/`catch`; the parse result is modelled as `Option Json` (`none` for a
parse failure). External handler callbacks may throw/reject, modelled as
`Except Unit Unit`. The outcome records the handler invocations performed,
whether the `catch` branch logged an error, and whether the connection was
closed by the frame (it never is). -/

def Handler := Json → Except Unit Unit

structure FrameOutcome where
  msgCalls : List Json
  tbCalls : List Json
  errLogged : Bool
  closesConn : Bool
deriving Repr

/-- The guard `parsed.type === t` for a string constant `t`: strict
equality holds exactly when the field is a string of the same content. -/
def typeFieldIs (parsed : Json) (t : String) : Bool :=
  match Json.getField parsed "type" with
  | some (Json.str s) => s == t
  | _ => false

/-- The first guarded dispatch:
`if (parsed.type === "webview-message" && parsed.payload && this.messageHandler)
   await this.messageHandler(parsed.payload)`.
Returns the invocations made (the payload, when the guard holds) and
whether the awaited handler threw. The guard conjuncts are side-effect
free, so testing the handler slot first is extensionally identical to the
source order. -/
def webviewDispatch (parsed : Json) (mh : Option Handler) : List Json × Bool :=
  match mh with
  | none => ([], false)
  | some f =>
    if typeFieldIs parsed "webview-message" && truthyOpt (Json.getField parsed "payload") then
      let p := (Json.getField parsed "payload").getD Json.null
      match f p with
      | Except.ok _ => ([p], false)
      | Except.error _ => ([p], true)
    else ([], false)

/-- The second guarded dispatch:
`if (parsed.type === "toolbar-action" && parsed.action && this.toolbarActionHandler)
   await this.toolbarActionHandler(parsed.action as string)`. -/
def toolbarDispatch (parsed : Json) (th : Option Handler) : List Json × Bool :=
  match th with
  | none => ([], false)
  | some f =>
    if typeFieldIs parsed "toolbar-action" && truthyOpt (Json.getField parsed "action") then
      let a := (Json.getField parsed "action").getD Json.null
      match f a with
      | Except.ok _ => ([a], false)
      | Except.error _ => ([a], true)
    else ([], false)

/-- One inbound frame through the `try`/`catch` body of the message
handler. `none` models a `JSON.parse` failure (caught, logged). A parsed
`null` makes the very first property access `parsed.type` throw a
`TypeError`, likewise caught and logged. If the first awaited handler
throws, the `catch` runs and the second dispatch is never reached. The
`catch` never closes the connection or touches the client registry. -/
def handleFrame (pr : Option Json) (mh th : Option Handler) : FrameOutcome :=
  match pr with
  | none => { msgCalls := [], tbCalls := [], errLogged := true, closesConn := false }
  | some Json.null => { msgCalls := [], tbCalls := [], errLogged := true, closesConn := false }
  | some parsed =>
    match webviewDispatch parsed mh with
    | (m, true) => { msgCalls := m, tbCalls := [], errLogged := true, closesConn := false }
    | (m, false) =>
      let t := toolbarDispatch parsed th
      { msgCalls := m, tbCalls := t.1, errLogged := t.2, closesConn := false }

/-- The per-connection message loop: frames arrive in order and each one
runs through `handleFrame` with the currently registered handlers. -/
def processFrames (mh th : Option Handler) : List (Option Json) → List FrameOutcome
  | [] => []
  | pr :: rest => handleFrame pr mh th :: processFrames mh th rest

/-! ## Connection registry and broadcast fan-out

`this.clients` is a `Set<WebSocket>`; it is modelled as the list of
registered connections in iteration (insertion) order. A connection
carries its `readyState`; `WebSocket.OPEN = 1`. -/

def WS_OPEN : Nat := 1

structure Conn where
  id : Nat
  readyState : Nat
deriving Repr, DecidableEq

structure WsSrv where
  clients : List Conn
deriving Repr, DecidableEq

/-- The outbound envelope `{type: "extension-message", payload: message}`
built once per broadcast. -/
def extensionEnvelope (message : Json) : Json :=
  Json.obj [("type", Json.str "extension-message"), ("payload", message)]

/-- Model of `WebServer.broadcastToClients`: early-return on an empty registry,
otherwise serialize the envelope once and `send` it to every client whose
`readyState` is `OPEN`, in registry order. Returns the (unchanged) server
state and the performed writes as `(client id, bytes)` pairs. -/
def broadcastToClients (st : WsSrv) (message : Json) : WsSrv × List (Nat × String) :=
  if st.clients.length = 0 then (st, [])
  else
    let data := Json.serialize (extensionEnvelope message)
    (st, (st.clients.filter (fun c => c.readyState == WS_OPEN)).map (fun c => (c.id, data)))

/-! ## HTTP request handling

Model of `checkBasicAuth`, `handleRequest`, `serveFile` and
`serveIndexHtml`. Strings are compared and sliced exactly as JavaScript
does on these ASCII header/path values. The filesystem is modelled as an
existence predicate plus a read function (`none` = read error, the
`catch`-to-500 path); `Buffer.from(s, "base64").toString("utf-8")` is an
external library call, modelled as an abstract `base64Decode` function. -/

structure Response where
  status : Nat
  headers : List (String × String)
  body : String
deriving Repr, DecidableEq

structure Request where
  method : String
  url : Option String
  authHeader : Option String
deriving Repr, DecidableEq

structure Env where
  buildDir : String
  assetsDir : String
  audioDir : String
  password : String
  fsExists : String → Bool
  fsRead : String → Option String
  base64Decode : String → String

/-- Model of `s.startsWith(p)` on ASCII strings. -/
def strStartsWith (s p : String) : Bool :=
  p.data.isPrefixOf s.data

/-- Model of `s.slice(n)` on ASCII strings. -/
def strDrop (s : String) (n : Nat) : String :=
  String.mk (s.data.drop n)

/-- Model of `url.split("?")[0]`: everything before the first question mark. -/
def stripQuery (url : String) : String :=
  String.mk (url.data.takeWhile (fun c => c ≠ '?'))

/-- Model of `s.toLowerCase()` on the ASCII extension strings this server
compares. -/
def strToLower (s : String) : String :=
  String.mk (s.data.map Char.toLower)

/-- Model of `decoded.slice(colonIdx + 1)` when a colon occurs, where `colonIdx` is
the index of the first colon. -/
def afterFirstColon : List Char → Option (List Char)
  | [] => none
  | c :: cs => if c = ':' then some cs else afterFirstColon cs

/-- Model of `const providedPassword = colonIdx >= 0 ? decoded.slice(colonIdx + 1) : decoded`:
the text after the first colon of the decoded credential, or the whole
decoded string when no colon is present. -/
def providedPassword (decoded : String) : String :=
  match afterFirstColon decoded.data with
  | some cs => String.mk cs
  | none => decoded

/-- The 401 response written by `checkBasicAuth` (its own headers; the
CORS headers already set on the response object are added by the caller
model `withCors`). -/
def unauthorizedResponse : Response :=
  { status := 401
  , headers := [("WWW-Authenticate", "Basic realm=\"Roo Code\""), ("Content-Type", "text/plain")]
  , body := "Unauthorized" }

/-- Model of `WebServer.checkBasicAuth`: `none` means the request passes the guard;
`some r` means the guard wrote response `r` and processing halts. -/
def checkBasicAuth (password : String) (authHeader : Option String)
    (base64Decode : String → String) : Option Response :=
  if password = "" then none
  else
    match authHeader with
    | some h =>
      if strStartsWith h "Basic " then
        let encoded := strDrop h ("Basic ".length)
        let decoded := base64Decode encoded
        if providedPassword decoded = password then none
        else some unauthorizedResponse
      else some unauthorizedResponse
    | none => some unauthorizedResponse

/-! ### Path resolution (`path.join`, `path.extname`)

`path.join` concatenates its segments and normalises the result: empty
and `.` segments vanish and `..` pops the previous segment (clamped at the
root, since the directory roots handed to `handleRequest` are absolute
fsPaths). POSIX separators are assumed. -/

/-- Split a character list at `/` separators (the semantics of
`String.prototype.split("/")`). -/
def splitSlash : List Char → List (List Char)
  | [] => [[]]
  | c :: cs =>
    if c = '/' then [] :: splitSlash cs
    else
      match splitSlash cs with
      | h :: t => (c :: h) :: t
      | [] => [[c]]

def segsOf (s : String) : List String :=
  (splitSlash s.data).map String.mk

/-- Normalisation fold of `path.join`: drop empty and `.` segments,
resolve `..` against the accumulated absolute path. -/
def normSegsAux (acc : List String) : List String → List String
  | [] => acc
  | s :: rest =>
    if s = "" ∨ s = "." then normSegsAux acc rest
    else if s = ".." then normSegsAux acc.dropLast rest
    else normSegsAux (acc ++ [s]) rest

def normSegs (segs : List String) : List String :=
  normSegsAux [] segs

/-- The segment list of `path.join(base, rest)` for an absolute `base`. -/
def joinSegs (base rest : String) : List String :=
  normSegs (segsOf base ++ segsOf rest)

/-- Model of `path.join(base, rest)` for an absolute POSIX `base`. -/
def pathJoin (base rest : String) : String :=
  "/" ++ String.intercalate "/" (joinSegs base rest)

/-- Whether the normalised path `p` stays inside the (normalised) root:
the root segments are a prefix of the path segments. -/
def withinRoot (root p : String) : Bool :=
  (normSegs (segsOf root)).isPrefixOf (normSegs (segsOf p))

/-- Suffix of the character list starting at its last dot, if any. -/
def lastDotSuffix : List Char → Option (List Char)
  | [] => none
  | c :: cs =>
    match lastDotSuffix cs with
    | some r => some r
    | none => if c = '.' then some (c :: cs) else none

/-- Model of `path.extname(p)`: the extension of the final path segment, from its
last dot; empty when there is no dot, when the only dot is the leading
character of the segment (dotfile), or for the special segment `..`. -/
def extname (p : String) : String :=
  let base := (segsOf p).getLastD ""
  if base = ".." then ""
  else
    match lastDotSuffix base.data with
    | none => ""
    | some r => if r.length = base.data.length then "" else String.mk r

/-- The `MIME_TYPES` table of `WebServer.ts`. -/
def MIME_TYPES : List (String × String) :=
  [ (".html", "text/html")
  , (".js", "application/javascript")
  , (".mjs", "application/javascript")
  , (".css", "text/css")
  , (".json", "application/json")
  , (".png", "image/png")
  , (".jpg", "image/jpeg")
  , (".jpeg", "image/jpeg")
  , (".gif", "image/gif")
  , (".svg", "image/svg+xml")
  , (".ico", "image/x-icon")
  , (".woff", "font/woff")
  , (".woff2", "font/woff2")
  , (".ttf", "font/ttf")
  , (".eot", "application/vnd.ms-fontobject")
  , (".otf", "font/otf")
  , (".wasm", "application/wasm")
  , (".mp3", "audio/mpeg")
  , (".wav", "audio/wav")
  , (".ogg", "audio/ogg") ]

def plainResponse (status : Nat) (body : String) : Response :=
  { status := status, headers := [("Content-Type", "text/plain")], body := body }

/-- Model of `WebServer.serveFile`: 404 when the file does not exist, otherwise
read it and answer 200 with the MIME type derived from the extension
(`application/octet-stream` fallback); a read error yields the `catch`
branch, a 500. -/
def serveFile (env : Env) (filePath : String) : Response :=
  if !(env.fsExists filePath) then plainResponse 404 "Not Found"
  else
    match env.fsRead filePath with
    | some content =>
      let contentType := (List.lookup (strToLower (extname filePath)) MIME_TYPES).getD
        "application/octet-stream"
      { status := 200, headers := [("Content-Type", contentType)], body := content }
    | none => plainResponse 500 "Internal Server Error"

/-- The synthesized bootstrap page for the build-asset presence flags.
The fixed theme/toolbar/reconnect content of the template is abbreviated
to a skeleton (the spec notes it needs no verbatim reproduction); the
algorithmic surface — the two conditionally included tags, which the
template inserts exactly when the corresponding flag string is nonempty —
is modelled faithfully. -/
def bootstrapHtml (jsFile cssFile : String) : String :=
  "<!DOCTYPE html><html><head><title>Roo Code</title>" ++
    (if cssFile != "" then
        "<link rel=\"stylesheet\" type=\"text/css\" href=\"" ++ cssFile ++ "\">"
      else "") ++
    "</head><body><div id=\"roo-web-toolbar\"></div><div id=\"root\"></div>" ++
    (if jsFile != "" then
        "<script type=\"module\" src=\"" ++ jsFile ++ "\"></script>"
      else "") ++
  "</body></html>"

/-- Model of `WebServer.serveIndexHtml`: probe `<buildDir>/assets/index.js` and
`.../index.css`, then answer 200 `text/html` with the synthesized page.
The only fallible call inside the `try` is `fs.existsSync`, which does not
throw, so the 500 `catch` branch is unreachable in the model. -/
def serveIndexHtml (env : Env) : Response :=
  let assetsDir := pathJoin env.buildDir "assets"
  let jsFile := if env.fsExists (pathJoin assetsDir "index.js") then "/assets/index.js" else ""
  let cssFile := if env.fsExists (pathJoin assetsDir "index.css") then "/assets/index.css" else ""
  { status := 200, headers := [("Content-Type", "text/html")]
  , body := bootstrapHtml jsFile cssFile }

/-- The routing tail of `WebServer.handleRequest`, applied to the
query-stripped path after the CORS/OPTIONS/auth preamble. -/
def route (env : Env) (urlPath : String) : Response :=
  if strStartsWith urlPath "/ext-assets/" then
    serveFile env (pathJoin env.assetsDir (strDrop urlPath ("/ext-assets/".length)))
  else if strStartsWith urlPath "/audio/" then
    serveFile env (pathJoin env.audioDir (strDrop urlPath ("/audio/".length)))
  else if urlPath = "/" ∨ extname urlPath = "" then
    serveIndexHtml env
  else
    let filePath := pathJoin env.buildDir urlPath
    if !(env.fsExists filePath) then serveIndexHtml env
    else serveFile env filePath

/-- The three CORS headers set on every response before anything else. -/
def corsHeaders : List (String × String) :=
  [ ("Access-Control-Allow-Origin", "*")
  , ("Access-Control-Allow-Methods", "GET, OPTIONS")
  , ("Access-Control-Allow-Headers", "Content-Type") ]

/-- The response object already carries the CORS headers when the later
handlers add theirs. -/
def withCors (r : Response) : Response :=
  { r with headers := corsHeaders ++ r.headers }

/-- Model of `WebServer.handleRequest`: default the URL to `/`, set the CORS
headers, answer `OPTIONS` with a bare 204 before the auth gate, then run
`checkBasicAuth` and — if it passes — route the query-stripped path. -/
def handleRequest (env : Env) (req : Request) : Response :=
  if req.method = "OPTIONS" then
    withCors { status := 204, headers := [], body := "" }
  else
    match checkBasicAuth env.password req.authHeader env.base64Decode with
    | some r => withCors r
    | none => withCors (route env (stripQuery (req.url.getD "/")))

/-! ## Server configuration lifecycle -/

def DEFAULT_WEB_SERVER_PORT : Int := 30000

/-- The configuration slice of the `WebServer` instance state. -/
structure SrvState where
  port : Int
  password : String
  running : Bool
deriving Repr, DecidableEq

/-- A fresh instance: field initialisers of the class. -/
def initState : SrvState :=
  { port := DEFAULT_WEB_SERVER_PORT, password := "", running := false }

/-- Model of `WebServer.configure`: `this.port = port > 0 ? port : DEFAULT_WEB_SERVER_PORT;
this.password = password ?? ""`. -/
def configure (st : SrvState) (port : Int) (password : Option String) : SrvState :=
  { st with
    port := if port > 0 then port else DEFAULT_WEB_SERVER_PORT
  , password := password.getD "" }

/-- Model of `WebServer.getPort`. -/
def getPort (st : SrvState) : Int :=
  st.port

/-- The effect of `WebServer.start` on the configuration slice: a no-op
when already running, otherwise it binds the listener on `this.port` —
reading, never writing, the stored port and password. -/
def startServer (st : SrvState) : SrvState :=
  if st.running then st else { st with running := true }

/-! ## Concrete instances used to exercise the model -/

/-- A handler callback that returns normally. -/
def okHandler : Handler := fun _ => Except.ok ()

/-- A handler callback that throws/rejects. -/
def badHandler : Handler := fun _ => Except.error ()

/-- A frame whose `payload` field is present but falsy. -/
def falsyPayloadFrame : Json :=
  Json.obj [("type", Json.str "webview-message"), ("payload", Json.bool false)]

/-- A well-formed webview-message frame with payload `{"x":1}`. -/
def xPayloadFrame : Json :=
  Json.obj [("type", Json.str "webview-message"), ("payload", Json.obj [("x", Json.num 1)])]

/-- A `GET` request for path `u` with no credentials. -/
def plainReq (u : String) : Request :=
  { method := "GET", url := some u, authHeader := none }

/-- A sample environment: no password, and a filesystem on which only
`/etc/passwd` — a file outside all three serving roots — exists. -/
def travEnv : Env :=
  { buildDir := "/ext/webview-ui/build"
  , assetsDir := "/ext/assets"
  , audioDir := "/ext/webview-ui/audio"
  , password := ""
  , fsExists := fun p => p == "/etc/passwd"
  , fsRead := fun p => if p == "/etc/passwd" then some "root:x:0:0" else none
  , base64Decode := fun _ => "" }

/-! ## Helper lemmas -/

theorem isPrefixOf_append_self {α : Type} [BEq α] [LawfulBEq α] (l t : List α) :
    l.isPrefixOf (l ++ t) = true := by
  induction l with
  | nil => cases t <;> rfl
  | cons a l ih => simp [List.isPrefixOf, ih]

theorem normSegsAux_append (a r acc : List String) :
    normSegsAux acc (a ++ r) = normSegsAux (normSegsAux acc a) r := by
  induction a generalizing acc with
  | nil => rfl
  | cons s rest ih =>
    by_cases h1 : s = "" ∨ s = "."
    · simp only [List.cons_append, normSegsAux, if_pos h1]
      exact ih acc
    · by_cases h2 : s = ".."
      · simp only [List.cons_append, normSegsAux, if_neg h1, if_pos h2]
        exact ih acc.dropLast
      · simp only [List.cons_append, normSegsAux, if_neg h1, if_neg h2]
        exact ih (acc ++ [s])

theorem normSegsAux_no_dotdot (r : List String) (h : ".." ∉ r) (acc : List String) :
    normSegsAux acc r = acc ++ normSegsAux [] r := by
  induction r generalizing acc with
  | nil => simp [normSegsAux]
  | cons s rest ih =>
    have hs : s ≠ ".." := by
      intro e
      exact h (by rw [← e]; exact List.mem_cons_self s rest)
    have hr : ".." ∉ rest := fun m => h (List.mem_cons_of_mem _ m)
    by_cases h1 : s = "" ∨ s = "."
    · simp only [normSegsAux, if_pos h1]
      exact ih hr acc
    · simp only [normSegsAux, if_neg h1, if_neg hs]
      rw [ih hr (acc ++ [s]), ih hr ([] ++ [s])]
      simp

/-- Containment under `path.join`: with no `..` segment in the joined
suffix, the normalised root is a prefix of the joined segment list. -/
theorem joinSegs_no_dotdot (base rest : String) (h : ".." ∉ segsOf rest) :
    (normSegs (segsOf base)).isPrefixOf (joinSegs base rest) = true := by
  unfold joinSegs normSegs
  rw [normSegsAux_append, normSegsAux_no_dotdot _ h]
  exact isPrefixOf_append_self _ _

/-- The generic arm of the frame handler, available whenever the parse
result is not the JavaScript `null`. -/
theorem handleFrame_some_eq (parsed : Json) (hne : parsed ≠ Json.null)
    (mh th : Option Handler) :
    handleFrame (some parsed) mh th =
      match webviewDispatch parsed mh with
      | (m, true) => { msgCalls := m, tbCalls := [], errLogged := true, closesConn := false }
      | (m, false) =>
        let t := toolbarDispatch parsed th
        { msgCalls := m, tbCalls := t.1, errLogged := t.2, closesConn := false } := by
  cases parsed <;> first | exact absurd rfl hne | rfl

theorem webviewDispatch_fst_ne_nil (parsed : Json) (mh : Option Handler)
    (h : (webviewDispatch parsed mh).1 ≠ []) :
    typeFieldIs parsed "webview-message" = true := by
  cases mh with
  | none =>
    unfold webviewDispatch at h
    exact absurd rfl h
  | some f =>
    by_cases hg : (typeFieldIs parsed "webview-message"
        && truthyOpt (Json.getField parsed "payload")) = true
    · exact ((Bool.and_eq_true _ _).mp hg).1
    · simp only [webviewDispatch, if_neg hg] at h
      exact absurd rfl h

theorem toolbarDispatch_fst_ne_nil (parsed : Json) (th : Option Handler)
    (h : (toolbarDispatch parsed th).1 ≠ []) :
    typeFieldIs parsed "toolbar-action" = true := by
  cases th with
  | none =>
    unfold toolbarDispatch at h
    exact absurd rfl h
  | some f =>
    by_cases hg : (typeFieldIs parsed "toolbar-action"
        && truthyOpt (Json.getField parsed "action")) = true
    · exact ((Bool.and_eq_true _ _).mp hg).1
    · simp only [toolbarDispatch, if_neg hg] at h
      exact absurd rfl h

/-- The single-valued `type` field cannot equal the two distinct dispatch
constants at once. -/
theorem typeField_not_both (parsed : Json)
    (h1 : typeFieldIs parsed "webview-message" = true)
    (h2 : typeFieldIs parsed "toolbar-action" = true) : False := by
  unfold typeFieldIs at h1 h2
  rcases hg : Json.getField parsed "type" with _ | v
  · rw [hg] at h1
    simp at h1
  · rw [hg] at h1 h2
    rcases v with _ | b | n | s | xs | fs <;> simp at h1 h2
    subst h1
    exact absurd h2 (by decide)

/-! ## Claim theorems -/

/-- Claim C8: `configure(port, password)` stores `port` as the server port
when it is a positive integer and substitutes the default 30000 otherwise;
`getPort()` returns exactly the stored value both before and after
`start`. -/
theorem c8_configure_get_port (st : SrvState) (port : Int) (password : Option String) :
    (0 < port → getPort (configure st port password) = port) ∧
    (port ≤ 0 → getPort (configure st port password) = DEFAULT_WEB_SERVER_PORT) ∧
    DEFAULT_WEB_SERVER_PORT = 30000 ∧
    getPort (startServer (configure st port password)) = getPort (configure st port password) := by
  refine ⟨?_, ?_, rfl, ?_⟩
  · intro h
    simp [configure, getPort, h]
  · intro h
    simp [configure, getPort, if_neg (not_lt.mpr h)]
  · unfold startServer
    split <;> rfl

/-- Witness for C8 at concrete ports 8080 and -1. -/
theorem c8_configure_get_port_witness :
    getPort (configure initState 8080 (some "pw")) = 8080 ∧
    getPort (configure initState (-1) none) = 30000 ∧
    getPort (startServer (configure initState 8080 (some "pw"))) = 8080 := by
  refine ⟨(c8_configure_get_port initState 8080 (some "pw")).1 (by decide), ?_, ?_⟩
  · have h := (c8_configure_get_port initState (-1) none).2.1 (by decide)
    simpa [DEFAULT_WEB_SERVER_PORT] using h
  · rw [(c8_configure_get_port initState 8080 (some "pw")).2.2.2]
    exact (c8_configure_get_port initState 8080 (some "pw")).1 (by decide)

/-- Claim C9: `broadcastToClients` never mutates the connection registry:
the registered connections are identical before and after the call. -/
theorem c9_broadcast_preserves_registry (st : WsSrv) (message : Json) :
    (broadcastToClients st message).1 = st := by
  unfold broadcastToClients
  split <;> rfl

/-- Claim C5: `broadcastToClients` wraps the message once as an
extension-message envelope, and the performed writes are exactly one copy
of the identical serialized bytes to every registry connection whose
socket state is open, in registry order — zero writes on an empty
registry. -/
theorem c5_broadcast_writes (clients : List Conn) (message : Json) :
    ((broadcastToClients ⟨clients⟩ message).2
      = (clients.filter (fun c => c.readyState == WS_OPEN)).map
          (fun c => (c.id, Json.serialize (extensionEnvelope message)))) ∧
    (∀ w ∈ (broadcastToClients ⟨clients⟩ message).2,
      w.2 = Json.serialize (extensionEnvelope message)) ∧
    (clients = [] → (broadcastToClients ⟨clients⟩ message).2 = []) := by
  have h1 : (broadcastToClients ⟨clients⟩ message).2
      = (clients.filter (fun c => c.readyState == WS_OPEN)).map
          (fun c => (c.id, Json.serialize (extensionEnvelope message))) := by
    unfold broadcastToClients
    split
    · next hlen =>
      have he : clients = [] := List.length_eq_zero.mp hlen
      subst he
      rfl
    · rfl
  refine ⟨h1, ?_, ?_⟩
  · intro w hw
    rw [h1] at hw
    obtain ⟨c, _, rfl⟩ := List.mem_map.mp hw
    rfl
  · intro he
    subst he
    rfl

/-- Witness for C5: two open connections and one non-open connection
receive exactly two writes of the same bytes; an empty registry receives
none. -/
theorem c5_broadcast_writes_witness :
    (broadcastToClients ⟨[]⟩ (Json.obj [("foo", Json.num 1)])).2 = [] ∧
    (broadcastToClients ⟨[⟨1, 1⟩, ⟨2, 3⟩, ⟨3, 1⟩]⟩ (Json.obj [("foo", Json.num 1)])).2
      = [ (1, Json.serialize (extensionEnvelope (Json.obj [("foo", Json.num 1)])))
        , (3, Json.serialize (extensionEnvelope (Json.obj [("foo", Json.num 1)]))) ] := by
  constructor
  · exact (c5_broadcast_writes [] (Json.obj [("foo", Json.num 1)])).2.2 rfl
  · rw [(c5_broadcast_writes [⟨1, 1⟩, ⟨2, 3⟩, ⟨3, 1⟩] (Json.obj [("foo", Json.num 1)])).1]
    rfl

/-- Claim C10: for every inbound frame at most one of the two registered
handlers is invoked, never both: the two dispatch guards compare the
single-valued `type` field against two distinct constants. -/
theorem c10_at_most_one_dispatch (pr : Option Json) (mh th : Option Handler) :
    (handleFrame pr mh th).msgCalls = [] ∨ (handleFrame pr mh th).tbCalls = [] := by
  rcases pr with _ | parsed
  · exact Or.inl rfl
  · by_cases hnull : parsed = Json.null
    · subst hnull
      exact Or.inl rfl
    · rw [handleFrame_some_eq parsed hnull]
      rcases hw : webviewDispatch parsed mh with ⟨m, thr⟩
      cases thr
      · by_cases hm : m = []
        · exact Or.inl (by simp [hm])
        · refine Or.inr ?_
          by_cases ht : (toolbarDispatch parsed th).1 = []
          · simpa using ht
          · exact absurd (typeField_not_both parsed
              (webviewDispatch_fst_ne_nil parsed mh (by rw [hw]; exact hm))
              (toolbarDispatch_fst_ne_nil parsed th ht)) (fun h => h)
      · exact Or.inr rfl

/-- Claim C2 (counterexample): a frame of type `webview-message` whose
`payload` field is present but falsy (here `false`) produces zero
invocations of the registered message handler, although the claim makes
mere presence of the field the dispatch condition. -/
theorem c2_presence_counterexample :
    Json.getField falsyPayloadFrame "payload" = some (Json.bool false) ∧
    (handleFrame (some falsyPayloadFrame) (some okHandler) none).msgCalls = [] := by
  exact ⟨rfl, rfl⟩

/-- Claim C2 (amended): with a message handler registered, a frame whose
`type` is `webview-message` invokes the handler exactly once with the
`payload` value exactly when that value is truthy (present and not
`null`, `false`, `0` or `""`); any other `type`, or a falsy payload,
produces no message-handler invocation. -/
theorem c2_dispatch_on_truthy_payload (parsed : Json) (f : Handler) (th : Option Handler) :
    (typeFieldIs parsed "webview-message" = true →
      truthyOpt (Json.getField parsed "payload") = true →
      (handleFrame (some parsed) (some f) th).msgCalls
        = [(Json.getField parsed "payload").getD Json.null]) ∧
    (typeFieldIs parsed "webview-message" = false →
      (handleFrame (some parsed) (some f) th).msgCalls = []) ∧
    (truthyOpt (Json.getField parsed "payload") = false →
      (handleFrame (some parsed) (some f) th).msgCalls = []) := by
  by_cases hnull : parsed = Json.null
  · subst hnull
    refine ⟨?_, fun _ => rfl, fun _ => rfl⟩
    intro ht
    simp [typeFieldIs, Json.getField] at ht
  · simp only [handleFrame_some_eq parsed hnull]
    refine ⟨?_, ?_, ?_⟩
    · intro ht hp
      simp only [webviewDispatch, ht, hp, Bool.and_self, if_true]
      cases hfp : f ((Json.getField parsed "payload").getD Json.null) <;> simp [hfp]
    · intro ht
      simp [webviewDispatch, ht]
    · intro hp
      simp [webviewDispatch, hp]

/-- Witness for C2 (amended): the frame
`{"type":"webview-message","payload":{"x":1}}` yields exactly one handler
invocation with `{"x":1}`; a frame with type `unknown` yields none. -/
theorem c2_dispatch_on_truthy_payload_witness :
    (handleFrame (some xPayloadFrame) (some okHandler) none).msgCalls
      = [Json.obj [("x", Json.num 1)]] ∧
    (handleFrame (some (Json.obj [("type", Json.str "unknown")])) (some okHandler) none).msgCalls
      = [] := by
  constructor
  · rw [(c2_dispatch_on_truthy_payload xPayloadFrame okHandler none).1 rfl rfl]
    rfl
  · exact (c2_dispatch_on_truthy_payload
      (Json.obj [("type", Json.str "unknown")]) okHandler none).2.1 rfl

/-- Claim C7: parse failures and handler exceptions are caught at the
dispatch site and logged; no frame ever closes the connection or touches
the registry, and the frames of a connection are processed independently,
so frames after a failure are still dispatched. -/
theorem c7_frame_errors_contained (mh th : Option Handler) :
    (∀ pr, (handleFrame pr mh th).closesConn = false) ∧
    ((handleFrame none mh th).errLogged = true ∧
      (handleFrame none mh th).msgCalls = [] ∧
      (handleFrame none mh th).tbCalls = []) ∧
    (∀ parsed f, mh = some f →
      typeFieldIs parsed "webview-message" = true →
      truthyOpt (Json.getField parsed "payload") = true →
      f ((Json.getField parsed "payload").getD Json.null) = Except.error () →
      (handleFrame (some parsed) mh th).errLogged = true ∧
      (handleFrame (some parsed) mh th).closesConn = false) ∧
    (∀ fs1 fs2, processFrames mh th (fs1 ++ fs2)
        = processFrames mh th fs1 ++ processFrames mh th fs2) := by
  refine ⟨?_, ⟨rfl, rfl, rfl⟩, ?_, ?_⟩
  · intro pr
    rcases pr with _ | parsed
    · rfl
    · by_cases hnull : parsed = Json.null
      · subst hnull
        rfl
      · rw [handleFrame_some_eq parsed hnull]
        rcases hw : webviewDispatch parsed mh with ⟨m, thr⟩
        cases thr <;> rfl
  · intro parsed f hmh ht hp hf
    subst hmh
    have hnull : parsed ≠ Json.null := by
      intro e
      subst e
      simp [typeFieldIs, Json.getField] at ht
    rw [handleFrame_some_eq parsed hnull]
    simp only [webviewDispatch, ht, hp, Bool.and_self, if_true, hf]
    refine ⟨?_, ?_⟩ <;> trivial
  · intro fs1 fs2
    induction fs1 with
    | nil => rfl
    | cons pr rest ih => simp [processFrames, ih]

/-- Witness for C7: a parse failure and a throwing handler both log
without closing the connection, and a later valid frame is still
dispatched. -/
theorem c7_frame_errors_contained_witness :
    (handleFrame none (some badHandler) none).errLogged = true ∧
    (handleFrame (some xPayloadFrame) (some badHandler) none).errLogged = true ∧
    (handleFrame (some xPayloadFrame) (some badHandler) none).closesConn = false ∧
    processFrames (some badHandler) none ([none] ++ [some xPayloadFrame])
      = processFrames (some badHandler) none [none]
        ++ processFrames (some badHandler) none [some xPayloadFrame] := by
  refine ⟨((c7_frame_errors_contained (some badHandler) none).2.1).1, ?_, ?_, ?_⟩
  · exact ((c7_frame_errors_contained (some badHandler) none).2.2.1
      xPayloadFrame badHandler rfl rfl rfl rfl).1
  · exact ((c7_frame_errors_contained (some badHandler) none).2.2.1
      xPayloadFrame badHandler rfl rfl rfl rfl).2
  · exact (c7_frame_errors_contained (some badHandler) none).2.2.2
      [none] [some xPayloadFrame]

/-- The password suffix extraction ignores everything before the first
colon. -/
theorem afterFirstColon_no_colon (u : List Char) (h : (':') ∉ u) (rest : List Char) :
    afterFirstColon (u ++ (':') :: rest) = some rest := by
  induction u with
  | nil => simp [afterFirstColon]
  | cons c cs ih =>
    have hc : c ≠ ':' := by
      intro e
      exact h (by rw [← e]; exact List.mem_cons_self c cs)
    have hcs : (':') ∉ cs := fun m => h (List.mem_cons_of_mem _ m)
    simp [afterFirstColon, hc, ih hcs]

/-- Claim C1: with a password configured, `checkBasicAuth` accepts exactly
the requests carrying a Basic credential whose base64-decoded text, after
the first colon (or in full when there is no colon), equals the configured
password — any username is accepted; otherwise it answers 401 with a
`WWW-Authenticate: Basic` challenge and a plaintext body and request
processing halts. With no password configured every request passes. -/
theorem c1_basic_auth_gate (pw : String) (hdr : Option String) (dec : String → String) :
    (pw = "" → checkBasicAuth pw hdr dec = none) ∧
    (pw ≠ "" →
      ((checkBasicAuth pw hdr dec = none) ↔
        ∃ h, hdr = some h ∧ strStartsWith h "Basic " = true ∧
          providedPassword (dec (strDrop h ("Basic ".length))) = pw)) ∧
    (checkBasicAuth pw hdr dec ≠ none →
      checkBasicAuth pw hdr dec = some unauthorizedResponse) ∧
    (unauthorizedResponse.status = 401 ∧
      ("WWW-Authenticate", "Basic realm=\"Roo Code\"") ∈ unauthorizedResponse.headers ∧
      ("Content-Type", "text/plain") ∈ unauthorizedResponse.headers ∧
      unauthorizedResponse.body = "Unauthorized") ∧
    (∀ user pass : String, (':') ∉ user.data →
      providedPassword (user ++ ":" ++ pass) = pass) ∧
    (∀ env req, req.method ≠ "OPTIONS" →
      checkBasicAuth env.password req.authHeader env.base64Decode
        = some unauthorizedResponse →
      handleRequest env req = withCors unauthorizedResponse) := by
  refine ⟨?_, ?_, ?_, by decide, ?_, ?_⟩
  · intro h
    simp [checkBasicAuth, h]
  · intro hpw
    rcases hdr with _ | h
    · simp [checkBasicAuth, hpw]
    · by_cases hb : strStartsWith h "Basic " = true
      · by_cases hpv : providedPassword (dec (strDrop h ("Basic ".length))) = pw
        · simp [checkBasicAuth, hpw, hb, hpv]
        · simp [checkBasicAuth, hpw, hb, hpv]
      · simp [checkBasicAuth, hpw, hb]
  · intro hne
    by_cases hpw : pw = ""
    · simp [checkBasicAuth, hpw] at hne
    · rcases hdr with _ | h
      · simp [checkBasicAuth, hpw]
      · by_cases hb : strStartsWith h "Basic " = true
        · by_cases hpv : providedPassword (dec (strDrop h ("Basic ".length))) = pw
          · simp [checkBasicAuth, hpw, hb, hpv] at hne
          · simp [checkBasicAuth, hpw, hb, hpv]
        · simp [checkBasicAuth, hpw, hb]
  · intro user pass hu
    unfold providedPassword
    have hd : (user ++ ":" ++ pass).data = user.data ++ ((':') :: pass.data) := by
      show (user.data ++ [':']) ++ pass.data = user.data ++ ((':') :: pass.data)
      simp
    rw [hd, afterFirstColon_no_colon user.data hu pass.data]
  · intro env req hm hc
    unfold handleRequest
    rw [if_neg hm, hc]

/-- Witness for C1: with password `secret`, the header
`Basic base64("anyuser:secret")` passes, a wrong password and a missing
header are both answered with the 401 challenge, and with no password a
bare request passes. -/
theorem c1_basic_auth_gate_witness :
    checkBasicAuth "secret" (some "Basic YW55dXNlcjpzZWNyZXQ=") (fun _ => "anyuser:secret")
      = none ∧
    checkBasicAuth "secret" (some "Basic YW55dXNlcjp3cm9uZw==") (fun _ => "anyuser:wrong")
      = some unauthorizedResponse ∧
    checkBasicAuth "secret" none (fun _ => "") = some unauthorizedResponse ∧
    checkBasicAuth "" none (fun _ => "") = none := by
  refine ⟨?_, ?_, ?_, ?_⟩
  · exact ((c1_basic_auth_gate "secret" (some "Basic YW55dXNlcjpzZWNyZXQ=")
        (fun _ => "anyuser:secret")).2.1 (by decide)).mpr
      ⟨"Basic YW55dXNlcjpzZWNyZXQ=", rfl, by decide, by decide⟩
  · exact (c1_basic_auth_gate "secret" (some "Basic YW55dXNlcjp3cm9uZw==")
      (fun _ => "anyuser:wrong")).2.2.1 (by decide)
  · exact (c1_basic_auth_gate "secret" none (fun _ => "")).2.2.1 (by decide)
  · exact (c1_basic_auth_gate "" none (fun _ => "")).1 rfl

/-- Claim C6: every response carries the three permissive CORS headers
ahead of the auth/routing decision, and an `OPTIONS` request is answered
204 with an empty body before the access guard runs — never 401, even
with a password configured. -/
theorem c6_cors_preflight (env : Env) (req : Request) :
    (∃ t, (handleRequest env req).headers = corsHeaders ++ t) ∧
    (req.method = "OPTIONS" →
      handleRequest env req = { status := 204, headers := corsHeaders, body := "" }) := by
  constructor
  · unfold handleRequest
    by_cases hm : req.method = "OPTIONS"
    · rw [if_pos hm]
      exact ⟨[], rfl⟩
    · rw [if_neg hm]
      rcases hc : checkBasicAuth env.password req.authHeader env.base64Decode with _ | r
      · exact ⟨(route env (stripQuery (req.url.getD "/"))).headers, rfl⟩
      · exact ⟨r.headers, rfl⟩
  · intro hm
    unfold handleRequest
    rw [if_pos hm]
    rfl

/-- Witness for C6: an `OPTIONS` request with no credentials against a
password-protected server is answered 204. -/
theorem c6_cors_preflight_witness :
    handleRequest { travEnv with password := "secret" }
        { method := "OPTIONS", url := some "/", authHeader := none }
      = { status := 204, headers := corsHeaders, body := "" } := by
  exact (c6_cors_preflight { travEnv with password := "secret" }
    { method := "OPTIONS", url := some "/", authHeader := none }).2 rfl

/-- A file that exists is answered 200 (or 500 on a read error), never
404. -/
theorem serveFile_status_of_exists (env : Env) (p : String)
    (h : env.fsExists p = true) :
    (serveFile env p).status = 200 ∨ (serveFile env p).status = 500 := by
  rcases hr : env.fsRead p with _ | c
  · right
    simp [serveFile, h, hr, plainResponse]
  · left
    simp [serveFile, h, hr]

/-- Claim C4: an authorized `GET` outside the `/ext-assets/` and `/audio/`
subtrees is never answered 404: the root path or an extensionless path is
answered with the bootstrap page at 200, and a path with an extension
whose file is absent under the build root falls back to the bootstrap
page as well. -/
theorem c4_spa_never_404 (env : Env) (req : Request)
    (hm : req.method = "GET")
    (ha : checkBasicAuth env.password req.authHeader env.base64Decode = none)
    (h1 : strStartsWith (stripQuery (req.url.getD "/")) "/ext-assets/" = false)
    (h2 : strStartsWith (stripQuery (req.url.getD "/")) "/audio/" = false) :
    (handleRequest env req).status ≠ 404 ∧
    ((stripQuery (req.url.getD "/") = "/" ∨ extname (stripQuery (req.url.getD "/")) = "") →
      handleRequest env req = withCors (serveIndexHtml env) ∧
      (handleRequest env req).status = 200) ∧
    ((extname (stripQuery (req.url.getD "/")) ≠ "" ∧
        env.fsExists (pathJoin env.buildDir (stripQuery (req.url.getD "/"))) = false) →
      handleRequest env req = withCors (serveIndexHtml env)) := by
  have hnm : req.method ≠ "OPTIONS" := by
    rw [hm]
    decide
  have hh : handleRequest env req = withCors (route env (stripQuery (req.url.getD "/"))) := by
    unfold handleRequest
    rw [if_neg hnm, ha]
  refine ⟨?_, ?_, ?_⟩
  · rw [hh]
    by_cases h3 : stripQuery (req.url.getD "/") = "/"
        ∨ extname (stripQuery (req.url.getD "/")) = ""
    · simp [route, h1, h2, h3, withCors, serveIndexHtml]
    · by_cases h4 : env.fsExists (pathJoin env.buildDir (stripQuery (req.url.getD "/"))) = true
      · have hs := serveFile_status_of_exists env
          (pathJoin env.buildDir (stripQuery (req.url.getD "/"))) h4
        have hr : route env (stripQuery (req.url.getD "/"))
            = serveFile env (pathJoin env.buildDir (stripQuery (req.url.getD "/"))) := by
          simp [route, h1, h2, h3, h4]
        rw [hr]
        rcases hs with hs | hs <;> simp [withCors, hs]
      · have h4f : env.fsExists (pathJoin env.buildDir (stripQuery (req.url.getD "/")))
            = false := by
          cases hfe : env.fsExists (pathJoin env.buildDir (stripQuery (req.url.getD "/")))
          · rfl
          · exact absurd hfe h4
        simp [route, h1, h2, h3, h4f, withCors, serveIndexHtml]
  · intro h3
    have hr : route env (stripQuery (req.url.getD "/")) = serveIndexHtml env := by
      simp [route, h1, h2, h3]
    rw [hh, hr]
    exact ⟨rfl, rfl⟩
  · rintro ⟨hext, hne⟩
    have h3 : ¬(stripQuery (req.url.getD "/") = "/"
        ∨ extname (stripQuery (req.url.getD "/")) = "") := by
      rintro (hroot | he)
      · rw [hroot] at hext
        exact hext rfl
      · exact hext he
    have hr : route env (stripQuery (req.url.getD "/")) = serveIndexHtml env := by
      simp [route, h1, h2, h3, hne]
    rw [hh, hr]

/-- Witness for C4: the extensionless path `/nonexistent-route` on an
unprotected server is answered with the bootstrap page at 200. -/
theorem c4_spa_never_404_witness :
    handleRequest travEnv (plainReq "/nonexistent-route")
      = withCors (serveIndexHtml travEnv) ∧
    (handleRequest travEnv (plainReq "/nonexistent-route")).status = 200 := by
  exact (c4_spa_never_404 travEnv (plainReq "/nonexistent-route")
    rfl (by decide) (by decide) (by decide)).2.1 (Or.inr (by decide))

/-- Claim C3 (counterexample): a `<rest>` containing `..` segments
resolves outside the extension-assets root — `path.join` normalises the
traversal — and the route then serves the outside file, here
`/etc/passwd`, refuting the for-every-rest containment. -/
theorem c3_containment_counterexample :
    pathJoin "/ext/assets" "../../etc/passwd" = "/etc/passwd" ∧
    withinRoot "/ext/assets" (pathJoin "/ext/assets" "../../etc/passwd") = false ∧
    handleRequest travEnv (plainReq "/ext-assets/../../etc/passwd")
      = withCors { status := 200, headers := [("Content-Type", "application/octet-stream")]
                 , body := "root:x:0:0" } := by
  refine ⟨by decide, by decide, by decide⟩

/-- Claim C3 (amended): `/ext-assets/<rest>` serves the file at
`path.join(assetsRoot, rest)`, answering 404 with a plaintext body when it
does not exist; the resolved path stays within the root for every
`<rest>` free of `..` segments, while `..` segments may escape it. -/
theorem c3_ext_assets_resolution (env : Env) (rest : String) :
    (route env ("/ext-assets/" ++ rest)
      = serveFile env (pathJoin env.assetsDir rest)) ∧
    (env.fsExists (pathJoin env.assetsDir rest) = false →
      route env ("/ext-assets/" ++ rest) = plainResponse 404 "Not Found" ∧
      (plainResponse 404 "Not Found").status = 404 ∧
      (plainResponse 404 "Not Found").headers = [("Content-Type", "text/plain")]) ∧
    (".." ∉ segsOf rest →
      (normSegs (segsOf env.assetsDir)).isPrefixOf (joinSegs env.assetsDir rest) = true) := by
  have hsw : strStartsWith ("/ext-assets/" ++ rest) "/ext-assets/" = true := by
    have hd : ("/ext-assets/" ++ rest).data = "/ext-assets/".data ++ rest.data := rfl
    rw [strStartsWith, hd]
    exact isPrefixOf_append_self _ _
  have hdrop : strDrop ("/ext-assets/" ++ rest) ("/ext-assets/".length) = rest := by
    show String.mk (("/ext-assets/" ++ rest).data.drop ("/ext-assets/".length)) = rest
    have hd : ("/ext-assets/" ++ rest).data = "/ext-assets/".data ++ rest.data := rfl
    rw [hd]
    have hl : "/ext-assets/".length = "/ext-assets/".data.length := rfl
    rw [hl, List.drop_left]
  have hmain : route env ("/ext-assets/" ++ rest)
      = serveFile env (pathJoin env.assetsDir rest) := by
    unfold route
    rw [if_pos hsw, hdrop]
  refine ⟨hmain, ?_, joinSegs_no_dotdot env.assetsDir rest⟩
  intro hne
  refine ⟨?_, rfl, rfl⟩
  rw [hmain]
  simp [serveFile, hne]

/-- Witness for C3 (amended): an absent asset is answered 404, and a
traversal-free `<rest>` resolves within the root. -/
theorem c3_ext_assets_resolution_witness :
    route travEnv "/ext-assets/does-not-exist.png" = plainResponse 404 "Not Found" ∧
    (normSegs (segsOf "/ext/assets")).isPrefixOf (joinSegs "/ext/assets" "icons/a.png")
      = true := by
  constructor
  · have he : ("/ext-assets/" ++ "does-not-exist.png" : String)
        = "/ext-assets/does-not-exist.png" := by decide
    have h := ((c3_ext_assets_resolution travEnv "does-not-exist.png").2.1 (by decide)).1
    rw [he] at h
    exact h
  · exact (c3_ext_assets_resolution travEnv "icons/a.png").2.2 (by decide)

end RooWeb
